import Mathlib

/-!
# CoW Swap integrator (`src/eoa.js`): order lifecycle

A shallow embedding of `checkAndSetAllowance`, `run`, `checkOrderStatus` and
`monitorOrder`.  Every `await` on a collaborator (JSON-RPC provider, token
contract, order-book API, signer, `fetch`) is a call whose outcome is supplied
by an environment; a rejected promise is `Except.error` carrying the message
of the thrown `Error`.  Each function returns the list of calls it made, in
order, together with its result.
-/

namespace CowSwap

deriving instance DecidableEq for Except

/-! ## Values and objects -/

/-- JavaScript values that occur as fields of the quote, the order and the
submitted payload. -/
inductive Val where
  | undefined
  | null
  | str (s : String)
  | num (n : Int)
  deriving DecidableEq, Repr

/-- A plain JavaScript object: its own properties, the most recently written
first. -/
abbrev Obj := List (String × Val)

/-- Property read `o.k`: `undefined` when the object has no such property. -/
def Obj.get (o : Obj) (k : String) : Val :=
  (o.lookup k).getD Val.undefined

/-- Property write in an object literal, `{ ...o, k: v }`. -/
def Obj.set (o : Obj) (k : String) (v : Val) : Obj :=
  (k, v) :: o

/-- Object spread `{ ...target, ...src }`: the properties of `src` override
those of `target`. -/
def Obj.spread (target src : Obj) : Obj :=
  src ++ target

/-! ## Constants -/

/-- The constant `SupportedChainId.MAINNET` of `@cowprotocol/cow-sdk`. -/
def SupportedChainId.MAINNET : Nat := 1

/-- The constant `OrderQuoteSideKindSell.SELL` of `@cowprotocol/cow-sdk`. -/
def OrderQuoteSideKindSell.SELL : String := "sell"

/-- The constant `ethers.constants.MaxUint256`. -/
def MaxUint256 : Nat := 2 ^ 256 - 1

/-- Line 20: the GPv2VaultRelayer address. -/
def COW_VAULT_RELAYER : String := "0xC92E8bdf79f0507f65a392b0ab4667716BFE0110"

/-- Line 83. -/
def USDT_ADDRESS : String := "0xdAC17F958D2ee523a2206206994597C13D831ec7"

/-- Line 84. -/
def WETH_ADDRESS : String := "0xC02aaA39b223FE8D0A0e5C4F27eAD9083C756Cc2"

/-! ## Big numbers -/

/-- Value of one decimal digit. -/
def digitVal (c : Char) : Option Nat :=
  if c.isDigit then some (c.toNat - 48) else none

/-- Reads a run of decimal digits onto the accumulator `acc`. -/
def readDigits : List Char → Nat → Option Nat
  | [], acc => some acc
  | c :: cs, acc =>
    match digitVal c with
    | some d => readDigits cs (acc * 10 + d)
    | none => none

/-- A non-empty string of decimal digits as a number. -/
def parseDecimal (cs : List Char) : Option Nat :=
  match cs with
  | [] => none
  | _ => readDigits cs 0

/-- What the code hands to a `BigNumber` operation: a `BigNumber` instance or
a decimal string. -/
inductive BigNumberish where
  | big (n : Nat)
  | str (s : String)
  deriving DecidableEq, Repr

/-- The conversion `BigNumber.from`, which throws on a string that is not a
number. -/
def BigNumber.from : BigNumberish → Except String Nat
  | .big n => .ok n
  | .str s =>
    match parseDecimal s.toList with
    | some n => .ok n
    | none => .error "invalid BigNumber string"

/-- The function `ethers.utils.parseUnits` on a non-negative decimal literal:
the integer part scaled by `10 ^ decimals` plus the fraction padded to
`decimals` digits. -/
def parseUnits (value : String) (decimals : Nat) : Except String Nat :=
  let cs := value.toList
  let whole := cs.takeWhile (fun c => c != '.')
  let rest := cs.dropWhile (fun c => c != '.')
  let fraction := rest.drop 1
  if decimals < fraction.length then .error "fractional component exceeds decimals"
  else
    match parseDecimal whole,
      readDigits (fraction ++ List.replicate (decimals - fraction.length) '0') 0 with
    | some w, some f => .ok (w * 10 ^ decimals + f)
    | _, _ => .error "invalid decimal value"

/-! ## Calls on collaborators -/

/-- The result `{ signature, signingScheme }` of `OrderSigningUtils.signOrder`. -/
structure SigningResult where
  signature : String
  signingScheme : String
  deriving DecidableEq, Repr

/-- The signing result as an object, for the spread on line 142. -/
def SigningResult.toObj (r : SigningResult) : Obj :=
  [("signature", Val.str r.signature), ("signingScheme", Val.str r.signingScheme)]

/-- One call on a collaborator, with its arguments. -/
inductive Call where
  | ethChainId
  | getAddress
  | getQuote (request : Obj)
  | allowance (token owner spender : String)
  | getGasPrice
  | approve (token spender : String) (amount gasLimit gasPrice : Nat)
  | wait (txHash : String) (confirmations : Nat)
  | signOrder (order : Obj) (chainId : Nat)
  | sendOrder (payload : Obj)
  deriving DecidableEq, Repr

/-- The outcome of every call a run can make. -/
structure Env where
  /-- `wallet.provider.send("eth_chainId", [])`, after the numeric coercion. -/
  chainId : Except String Nat
  /-- `wallet.getAddress()`. -/
  getAddress : Except String String
  /-- The property `wallet.address`. -/
  walletAddress : String
  /-- `orderBookApi.getQuote(request)`: the `quote` of the response. -/
  getQuote : Obj → Except String Obj
  /-- `tokenContract.allowance(owner, spender)`. -/
  allowance : String → String → String → Except String Nat
  /-- `provider.getGasPrice()`. -/
  getGasPrice : Except String Nat
  /-- `tokenContract.approve(spender, amount, overrides)`: the transaction hash. -/
  approve : String → String → Nat → Nat → Nat → Except String String
  /-- `approveTx.wait(confirmations)`: the block number of the receipt. -/
  wait : String → Nat → Except String Nat
  /-- `OrderSigningUtils.signOrder(order, chainId, wallet)`. -/
  signOrder : Obj → Nat → Except String SigningResult
  /-- `orderBookApi.sendOrder(payload)`: the order id. -/
  sendOrder : Obj → Except String String

/-- What a function did: the calls it made, in order, and how it ended. -/
structure Outcome (α : Type) where
  calls : List Call
  result : Except String α

/-! ## `checkAndSetAllowance` (lines 25-66) -/

/-- Lines 25-66. -/
def checkAndSetAllowance (env : Env) (tokenAddress spenderAddress : String)
    (amount : BigNumberish) : Outcome Bool :=
  let readCall := Call.allowance tokenAddress env.walletAddress spenderAddress
  match env.allowance tokenAddress env.walletAddress spenderAddress with
  | .error e => ⟨[readCall], .error e⟩
  | .ok currentAllowance =>
    match BigNumber.from amount with
    | .error e => ⟨[readCall], .error e⟩
    | .ok required =>
      if currentAllowance < required then
        let approvalAmount := MaxUint256
        match env.getGasPrice with
        | .error e => ⟨[readCall, Call.getGasPrice], .error e⟩
        | .ok gasPrice =>
          let approveCall :=
            Call.approve tokenAddress spenderAddress approvalAmount 100000 gasPrice
          match env.approve tokenAddress spenderAddress approvalAmount 100000 gasPrice with
          | .error e => ⟨[readCall, Call.getGasPrice, approveCall], .error e⟩
          | .ok txHash =>
            match env.wait txHash 1 with
            | .error e =>
              ⟨[readCall, Call.getGasPrice, approveCall, Call.wait txHash 1], .error e⟩
            | .ok _ =>
              ⟨[readCall, Call.getGasPrice, approveCall, Call.wait txHash 1], .ok true⟩
      else ⟨[readCall], .ok false⟩

/-- Whether a call is an approval transaction. -/
def Call.isApprove : Call → Bool
  | .approve _ _ _ _ _ => true
  | _ => false

/-- The approval transactions among a list of calls. -/
def approvals (cs : List Call) : List Call :=
  cs.filter Call.isApprove

/-! ## `run` (lines 68-151) -/

/-- Line 73: the message of the error thrown on a chain other than mainnet. -/
def networkMismatchMessage (chainId : Nat) : String :=
  "Please connect to mainnet. ChainId: " ++ toString chainId

/-- Lines 94-101: the quote request. -/
def quoteRequest (sellToken buyToken ownerAddress sellAmount : String) : Obj :=
  [("sellToken", Val.str sellToken),
   ("buyToken", Val.str buyToken),
   ("from", Val.str ownerAddress),
   ("receiver", Val.str ownerAddress),
   ("sellAmountBeforeFee", Val.str sellAmount),
   ("kind", Val.str OrderQuoteSideKindSell.SELL)]

/-- Lines 123-130: the order `{ ...quote, sellAmount, feeAmount, receiver }`. -/
def buildOrder (quote : Obj) (sellAmount ownerAddress : String) : Obj :=
  let feeAmount := "0"
  ((quote.set "sellAmount" (Val.str sellAmount)).set "feeAmount" (Val.str feeAmount)).set
    "receiver" (Val.str ownerAddress)

/-- Lines 140-146: the argument of `sendOrder`. -/
def buildPayload (quote order : Obj) (orderSigningResult : SigningResult) : Obj :=
  (((quote.spread orderSigningResult.toObj).set "sellAmount" (order.get "sellAmount")).set
    "feeAmount" (order.get "feeAmount")).set
    "signingScheme" (Val.str orderSigningResult.signingScheme)

/-- Lines 68-151. -/
def run (env : Env) : Outcome String :=
  match env.chainId with
  | .error e => ⟨[Call.ethChainId], .error e⟩
  | .ok chainId =>
    if chainId ≠ SupportedChainId.MAINNET then
      ⟨[Call.ethChainId], .error (networkMismatchMessage chainId)⟩
    else
      match env.getAddress with
      | .error e => ⟨[Call.ethChainId, Call.getAddress], .error e⟩
      | .ok ownerAddress =>
        match parseUnits "0.01" 18 with
        | .error e => ⟨[Call.ethChainId, Call.getAddress], .error e⟩
        | .ok units =>
          let amount := toString units
          let sellToken := WETH_ADDRESS
          let buyToken := USDT_ADDRESS
          let sellAmount := amount
          let request := quoteRequest sellToken buyToken ownerAddress sellAmount
          let upToQuote := [Call.ethChainId, Call.getAddress, Call.getQuote request]
          match env.getQuote request with
          | .error e => ⟨upToQuote, .error e⟩
          | .ok quote =>
            let spenderAddress := COW_VAULT_RELAYER
            let allowanceStep :=
              checkAndSetAllowance env sellToken spenderAddress (BigNumberish.str sellAmount)
            match allowanceStep.result with
            | .error e => ⟨upToQuote ++ allowanceStep.calls, .error e⟩
            | .ok _ =>
              let order := buildOrder quote sellAmount ownerAddress
              let upToSign := upToQuote ++ allowanceStep.calls ++ [Call.signOrder order chainId]
              match env.signOrder order chainId with
              | .error e => ⟨upToSign, .error e⟩
              | .ok orderSigningResult =>
                let payload := buildPayload quote order orderSigningResult
                match env.sendOrder payload with
                | .error e => ⟨upToSign ++ [Call.sendOrder payload], .error e⟩
                | .ok orderId => ⟨upToSign ++ [Call.sendOrder payload], .ok orderId⟩

/-! ## `checkOrderStatus` (lines 156-201) -/

/-- The order record of the order-book API, as far as the code branches on it. -/
structure OrderData where
  uid : String
  status : String
  deriving DecidableEq, Repr

/-- What `fetch` resolves to. -/
structure HttpResponse where
  ok : Bool
  status : Nat
  statusText : String
  /-- `response.json()`. -/
  json : Except String OrderData
  deriving DecidableEq

/-- What `checkOrderStatus` returns: `{ error: message }` or the order data. -/
inductive StatusResult where
  | error (message : String)
  | data (orderData : OrderData)
  deriving DecidableEq, Repr

/-- Lines 158-162: the address that is fetched. -/
def orderUrl (orderUID : String) (chainId : Nat) : String :=
  (if chainId = SupportedChainId.MAINNET then "https://api.cow.fi/mainnet"
   else "https://api.cow.fi/gnosis") ++ "/api/v1/orders/" ++ orderUID

/-- Lines 157-200, given what `fetch` did: every exception is caught and
becomes an error record. -/
def checkOrderStatus (fetched : Except String HttpResponse) : StatusResult :=
  match fetched with
  | .error message => StatusResult.error message
  | .ok response =>
    if !response.ok then
      if response.status = 404 then StatusResult.error "Order not found"
      else
        StatusResult.error
          ("HTTP " ++ toString response.status ++ ": " ++ response.statusText)
    else
      match response.json with
      | .error message => StatusResult.error message
      | .ok orderData => StatusResult.data orderData

/-- Line 215: the truthiness of `orderStatus.error`. -/
def StatusResult.hasError : StatusResult → Bool
  | .error message => message != ""
  | .data _ => false

/-- Line 220: `orderStatus.status`, `none` for `undefined`. -/
def StatusResult.status : StatusResult → Option String
  | .error _ => none
  | .data orderData => some orderData.status

/-! ## `monitorOrder` (lines 206-238) -/

/-- The world `monitorOrder` runs in. -/
structure MonitorEnv where
  /-- The reading of `Date.now()` on line 207. -/
  startTime : Nat
  /-- What the `i`-th `fetch` (counting from 0) of an address does. -/
  fetch : Nat → String → Except String HttpResponse
  /-- Milliseconds the `i`-th status check takes. -/
  fetchTime : Nat → Nat
  /-- Milliseconds by which the `i`-th 30 s timer fires late. -/
  waitExtra : Nat → Nat

/-- The clock and the numbers of status checks and of waits so far. -/
structure MonitorState where
  now : Nat
  fetches : Nat
  waits : Nat
  deriving DecidableEq, Repr

/-- What `monitorOrder` returned and how many status checks and waits it made. -/
structure MonitorResult where
  result : StatusResult
  fetches : Nat
  waits : Nat
  deriving DecidableEq, Repr

/-- Line 237: the status check after the loop. -/
def finalCheck (env : MonitorEnv) (orderUID : String) (s : MonitorState) : MonitorResult :=
  ⟨checkOrderStatus (env.fetch s.fetches (orderUrl orderUID SupportedChainId.MAINNET)),
    s.fetches + 1, s.waits⟩

/-- Lines 212-237: the loop and what follows it; `none` when the fuel does not
cover the iterations. -/
def monitorLoop (env : MonitorEnv) (orderUID : String) (timeout : Nat) :
    Nat → MonitorState → Option MonitorResult
  | 0, _ => none
  | fuel + 1, s =>
    if s.now - env.startTime < timeout then
      let orderStatus :=
        checkOrderStatus (env.fetch s.fetches (orderUrl orderUID SupportedChainId.MAINNET))
      let s1 : MonitorState := ⟨s.now + env.fetchTime s.fetches, s.fetches + 1, s.waits⟩
      if orderStatus.hasError then
        some (finalCheck env orderUID s1)
      else
        let status := orderStatus.status
        if status = some "fulfilled" then
          some ⟨orderStatus, s1.fetches, s1.waits⟩
        else if status = some "cancelled" ∨ status = some "expired" then
          some ⟨orderStatus, s1.fetches, s1.waits⟩
        else
          monitorLoop env orderUID timeout fuel
            ⟨s1.now + 30000 + env.waitExtra s1.waits, s1.fetches, s1.waits + 1⟩
    else
      some (finalCheck env orderUID s)

/-- Lines 207-237 for a timeout in milliseconds. -/
def monitorFor (env : MonitorEnv) (orderUID : String) (timeout fuel : Nat) :
    Option MonitorResult :=
  monitorLoop env orderUID timeout fuel ⟨env.startTime, 0, 0⟩

/-- Lines 206-238. -/
def monitorOrder (env : MonitorEnv) (orderUID : String) (timeoutMinutes fuel : Nat) :
    Option MonitorResult :=
  monitorFor env orderUID (timeoutMinutes * 60 * 1000) fuel

/-! ## Stages and failures of a run -/

/-- The external steps of a run. -/
inductive Stage where
  | networkCheck
  | address
  | quote
  | allowanceRead
  | gasPrice
  | approve
  | confirm
  | sign
  | submit
  deriving DecidableEq, Repr

/-- The step a call belongs to. -/
def Call.stage : Call → Stage
  | .ethChainId => Stage.networkCheck
  | .getAddress => Stage.address
  | .getQuote _ => Stage.quote
  | .allowance _ _ _ => Stage.allowanceRead
  | .getGasPrice => Stage.gasPrice
  | .approve _ _ _ _ _ => Stage.approve
  | .wait _ _ => Stage.confirm
  | .signOrder _ _ => Stage.sign
  | .sendOrder _ => Stage.submit

/-- The steps of a run that has to approve. -/
def pipelineWithApproval : List Stage :=
  [Stage.networkCheck, Stage.address, Stage.quote, Stage.allowanceRead, Stage.gasPrice,
   Stage.approve, Stage.confirm, Stage.sign, Stage.submit]

/-- The steps of a run whose allowance suffices. -/
def pipelineWithoutApproval : List Stage :=
  [Stage.networkCheck, Stage.address, Stage.quote, Stage.allowanceRead, Stage.sign,
   Stage.submit]

/-- The message of a rejection, if any. -/
def rejection {α : Type} : Except String α → Option String
  | .error e => some e
  | .ok _ => none

/-- The error with which the world answers a call, if it rejects it. -/
def Env.failure (env : Env) : Call → Option String
  | .ethChainId => rejection env.chainId
  | .getAddress => rejection env.getAddress
  | .getQuote request => rejection (env.getQuote request)
  | .allowance token owner spender => rejection (env.allowance token owner spender)
  | .getGasPrice => rejection env.getGasPrice
  | .approve token spender amount gasLimit gasPrice =>
    rejection (env.approve token spender amount gasLimit gasPrice)
  | .wait txHash confirmations => rejection (env.wait txHash confirmations)
  | .signOrder order chainId => rejection (env.signOrder order chainId)
  | .sendOrder payload => rejection (env.sendOrder payload)

/-- The stages of `run` once the quote has arrived (lines 110-150), with the
amount of line 87 evaluated. -/
def runAfterQuote (env : Env) (ownerAddress : String) (quote : Obj) : Outcome String :=
  let sellAmount := "10000000000000000"
  let upToQuote := [Call.ethChainId, Call.getAddress,
    Call.getQuote (quoteRequest WETH_ADDRESS USDT_ADDRESS ownerAddress sellAmount)]
  let allowanceStep :=
    checkAndSetAllowance env WETH_ADDRESS COW_VAULT_RELAYER (BigNumberish.str sellAmount)
  match allowanceStep.result with
  | .error e => ⟨upToQuote ++ allowanceStep.calls, .error e⟩
  | .ok _ =>
    let order := buildOrder quote sellAmount ownerAddress
    let upToSign := upToQuote ++ allowanceStep.calls ++ [Call.signOrder order 1]
    match env.signOrder order 1 with
    | .error e => ⟨upToSign, .error e⟩
    | .ok orderSigningResult =>
      let payload := buildPayload quote order orderSigningResult
      match env.sendOrder payload with
      | .error e => ⟨upToSign ++ [Call.sendOrder payload], .error e⟩
      | .ok orderId => ⟨upToSign ++ [Call.sendOrder payload], .ok orderId⟩

/-! ## The ledger behind the allowance -/

/-- The allowances the token contracts hold, by token, owner and spender. -/
abbrev Ledger := String → String → String → Nat

/-- The effect of a confirmed `approve(spender, x)` sent by `owner` to the
contract `token`: the allowance of (`owner`, `spender`) on that token becomes
`x`, every other allowance stays. -/
def Ledger.approve (ledger : Ledger) (token owner spender : String) (x : Nat) : Ledger :=
  fun t o s => if t = token ∧ o = owner ∧ s = spender then x else ledger t o s

/-- The ledger after the calls a wallet made: an approve call takes effect when
the wait right after it is for the transaction that call sent, asks for at
least one confirmation and succeeds; it then sets the allowance for the token
and the spender it names, with the wallet as owner.  No other call changes an
allowance. -/
def ledgerAfter (env : Env) (owner : String) : List Call → Ledger → Ledger
  | [], ledger => ledger
  | Call.approve token spender x gasLimit gasPrice :: Call.wait txHash confirmations :: rest,
      ledger =>
    if env.approve token spender x gasLimit gasPrice = .ok txHash ∧ 0 < confirmations then
      match env.wait txHash confirmations with
      | .ok _ => ledgerAfter env owner rest (ledger.approve token owner spender x)
      | .error _ => ledgerAfter env owner rest ledger
    else ledgerAfter env owner rest ledger
  | _ :: rest, ledger => ledgerAfter env owner rest ledger

/-- A ledger without any allowance. -/
def emptyLedger : Ledger := fun _ _ _ => 0

/-! ## Sample worlds -/

/-- A quote with a fee, its own sell amount and a receiver. -/
def sampleQuote : Obj :=
  [("sellToken", Val.str WETH_ADDRESS),
   ("buyToken", Val.str USDT_ADDRESS),
   ("receiver", Val.str "0xb0b"),
   ("sellAmount", Val.str "9990000000000000"),
   ("buyAmount", Val.str "25000000"),
   ("feeAmount", Val.str "10000000000000"),
   ("validTo", Val.num 1700000000)]

/-- A quote with exactly the six fields of the specification's data model. -/
def plainQuote : Obj :=
  [("sellToken", Val.str WETH_ADDRESS),
   ("buyToken", Val.str USDT_ADDRESS),
   ("sellAmount", Val.str "9990000000000000"),
   ("buyAmount", Val.str "25000000"),
   ("feeAmount", Val.str "10000000000000"),
   ("validTo", Val.num 1700000000)]

/-- Mainnet, no allowance yet, every call succeeds. -/
def sampleEnv : Env where
  chainId := .ok 1
  getAddress := .ok "0xA11ce"
  walletAddress := "0xA11ce"
  getQuote := fun _ => .ok sampleQuote
  allowance := fun _ _ _ => .ok 0
  getGasPrice := .ok 3
  approve := fun _ _ _ _ _ => .ok "0xhash"
  wait := fun _ _ => .ok 9
  signOrder := fun _ _ => .ok ⟨"0xsig", "eip712"⟩
  sendOrder := fun _ => .ok "0xorder"

/-- As `sampleEnv`, but the gas price cannot be read. -/
def gasPriceFailsEnv : Env :=
  { sampleEnv with getGasPrice := .error "could not detect network" }

/-- As `sampleEnv`, on the chain with id 5. -/
def wrongChainEnv : Env :=
  { sampleEnv with chainId := .ok 5 }

/-- As `sampleEnv`, with the allowance already at its maximum. -/
def approvedEnv : Env :=
  { sampleEnv with allowance := fun _ _ _ => .ok MaxUint256 }

/-- As `sampleEnv`, with a quote that carries no receiver. -/
def plainQuoteEnv : Env :=
  { sampleEnv with getQuote := fun _ => .ok plainQuote }

/-! ## The clock of `monitorOrder` -/

/-- The statuses on which `monitorOrder` returns from inside the loop. -/
def terminalStatus (status : String) : Prop :=
  status = "fulfilled" ∨ status = "cancelled" ∨ status = "expired"

instance (status : String) : Decidable (terminalStatus status) := by
  unfold terminalStatus
  infer_instance

/-- Milliseconds on the clock, counted from `startTime`, when the status check
number `j` (from 0) starts, the `j` checks before it each having been followed
by a wait. -/
def elapsedBefore (env : MonitorEnv) : Nat → Nat
  | 0 => 0
  | j + 1 => elapsedBefore env j + env.fetchTime j + 30000 + env.waitExtra j

/-- An answer of the order-book API with the given status. -/
def okResponse (status : String) : Except String HttpResponse :=
  .ok ⟨true, 200, "OK", .ok ⟨"0xorder", status⟩⟩

/-- The order is open twice, then fulfilled; a check takes 200 ms. -/
def fulfilledThirdEnv : MonitorEnv where
  startTime := 1700000000000
  fetch := fun i _ => if i < 2 then okResponse "open" else okResponse "fulfilled"
  fetchTime := fun _ => 200
  waitExtra := fun _ => 5

/-- The order stays open; checks and timers take no extra time. -/
def alwaysOpenEnv : MonitorEnv where
  startTime := 1700000000000
  fetch := fun _ _ => okResponse "open"
  fetchTime := fun _ => 0
  waitExtra := fun _ => 0

/-- The first status check gets HTTP 500, the next one finds the order
fulfilled. -/
def failsFirstEnv : MonitorEnv where
  startTime := 1700000000000
  fetch := fun i _ =>
    if i = 0 then .ok ⟨false, 500, "Internal Server Error", .error "Unexpected token"⟩
    else okResponse "fulfilled"
  fetchTime := fun _ => 200
  waitExtra := fun _ => 0

/-! ## Allowance: theorems -/

/-- C1 (as stated, refuted): with allowance 0 below the required 1 and a gas
price read that fails, no approve call is sent and the call does not return
true. -/
theorem checkAndSetAllowance_no_approval_when_gas_price_fails :
    gasPriceFailsEnv.allowance "0xT" gasPriceFailsEnv.walletAddress "0xS" = .ok 0 ∧
    BigNumber.from (BigNumberish.big 1) = .ok 1 ∧ 0 < 1 ∧
    approvals (checkAndSetAllowance gasPriceFailsEnv "0xT" "0xS" (BigNumberish.big 1)).calls
      = [] ∧
    (checkAndSetAllowance gasPriceFailsEnv "0xT" "0xS" (BigNumberish.big 1)).result
      = .error "could not detect network" := by
  decide

/-- C1 (amended): with current allowance `A` and required amount `R`, when
`R ≤ A` the call sends nothing after the allowance read and returns false.
When `A < R` it never returns false and sends at most one approve call: if the
gas price read fails it stops there with that error, no approve call sent;
otherwise it sends exactly one approve call, for `MaxUint256` with gas limit
100000; if that call fails it stops with its error; otherwise it waits for one
confirmation of that transaction, fails with the error of the wait if the wait
fails, and returns true if it succeeds.  It returns true only when `A < R`,
after exactly one approve call. -/
theorem checkAndSetAllowance_approves_iff (env : Env) (token spender : String)
    (amount : BigNumberish) (R A : Nat)
    (hA : env.allowance token env.walletAddress spender = .ok A)
    (hR : BigNumber.from amount = .ok R) :
    (R ≤ A → checkAndSetAllowance env token spender amount
        = ⟨[Call.allowance token env.walletAddress spender], .ok false⟩) ∧
    (A < R →
      (approvals (checkAndSetAllowance env token spender amount).calls).length ≤ 1 ∧
      (checkAndSetAllowance env token spender amount).result ≠ .ok false ∧
      (∀ g, env.getGasPrice = .ok g →
        approvals (checkAndSetAllowance env token spender amount).calls
          = [Call.approve token spender MaxUint256 100000 g]) ∧
      (∀ e, env.getGasPrice = .error e →
        checkAndSetAllowance env token spender amount
          = ⟨[Call.allowance token env.walletAddress spender, Call.getGasPrice],
              .error e⟩) ∧
      (∀ g e, env.getGasPrice = .ok g →
        env.approve token spender MaxUint256 100000 g = .error e →
        checkAndSetAllowance env token spender amount
          = ⟨[Call.allowance token env.walletAddress spender, Call.getGasPrice,
              Call.approve token spender MaxUint256 100000 g], .error e⟩) ∧
      (∀ g tx e, env.getGasPrice = .ok g →
        env.approve token spender MaxUint256 100000 g = .ok tx →
        env.wait tx 1 = .error e →
        checkAndSetAllowance env token spender amount
          = ⟨[Call.allowance token env.walletAddress spender, Call.getGasPrice,
              Call.approve token spender MaxUint256 100000 g, Call.wait tx 1], .error e⟩) ∧
      (∀ g tx blk, env.getGasPrice = .ok g →
        env.approve token spender MaxUint256 100000 g = .ok tx →
        env.wait tx 1 = .ok blk →
        checkAndSetAllowance env token spender amount
          = ⟨[Call.allowance token env.walletAddress spender, Call.getGasPrice,
              Call.approve token spender MaxUint256 100000 g, Call.wait tx 1], .ok true⟩)) ∧
    ((checkAndSetAllowance env token spender amount).result = .ok true →
      A < R ∧ (approvals (checkAndSetAllowance env token spender amount).calls).length = 1) := by
  refine ⟨?_, ?_, ?_⟩
  · intro h
    simp [checkAndSetAllowance, hA, hR, Nat.not_lt.mpr h]
  · intro h
    refine ⟨?_, ?_, ?_, ?_, ?_, ?_, ?_⟩
    · simp only [checkAndSetAllowance, hA, hR, h, if_true]
      split <;> [simp [approvals, Call.isApprove]; split <;> [simp [approvals, Call.isApprove]; split <;> simp [approvals, Call.isApprove]]]
    · simp only [checkAndSetAllowance, hA, hR, h, if_true]
      split <;> [simp; split <;> [simp; split <;> simp]]
    · intro g hg
      simp only [checkAndSetAllowance, hA, hR, h, if_true, hg]
      split <;> [simp [approvals, Call.isApprove]; split <;> simp [approvals, Call.isApprove]]
    · intro e hg
      simp [checkAndSetAllowance, hA, hR, h, hg]
    · intro g e hg htx
      simp [checkAndSetAllowance, hA, hR, h, hg, htx]
    · intro g tx e hg htx hw
      simp [checkAndSetAllowance, hA, hR, h, hg, htx, hw]
    · intro g tx blk hg htx hw
      simp [checkAndSetAllowance, hA, hR, h, hg, htx, hw]
  · intro h
    by_cases hlt : A < R
    · refine ⟨hlt, ?_⟩
      cases hg : env.getGasPrice with
      | error e => simp [checkAndSetAllowance, hA, hR, hlt, hg] at h
      | ok g =>
        cases htx : env.approve token spender MaxUint256 100000 g with
        | error e => simp [checkAndSetAllowance, hA, hR, hlt, hg, htx] at h
        | ok tx =>
          cases hw : env.wait tx 1 with
          | error e => simp [checkAndSetAllowance, hA, hR, hlt, hg, htx, hw] at h
          | ok blk =>
            simp [checkAndSetAllowance, hA, hR, hlt, hg, htx, hw, approvals, Call.isApprove]
    · simp [checkAndSetAllowance, hA, hR, hlt] at h

/-- Witness for `checkAndSetAllowance_approves_iff`: allowance 0, required 1,
every call succeeds. -/
theorem checkAndSetAllowance_approves_iff_witness :
    checkAndSetAllowance sampleEnv "0xT" "0xS" (BigNumberish.big 1)
      = ⟨[Call.allowance "0xT" sampleEnv.walletAddress "0xS", Call.getGasPrice,
          Call.approve "0xT" "0xS" MaxUint256 100000 3, Call.wait "0xhash" 1], .ok true⟩ :=
  (checkAndSetAllowance_approves_iff sampleEnv "0xT" "0xS" (BigNumberish.big 1) 1 0
    rfl rfl).2.1 (by decide) |>.2.2.2.2.2.2 3 "0xhash" 9 rfl rfl rfl

/-- The first call, when it returns after reading an allowance `A`, either
found `R ≤ A` and only read, or made the four calls of an approval whose
confirmation succeeded. -/
theorem checkAndSetAllowance_returned (env : Env) (token spender : String)
    (amount : BigNumberish) (R A : Nat) (b : Bool)
    (hA : env.allowance token env.walletAddress spender = .ok A)
    (hR : BigNumber.from amount = .ok R)
    (hfirst : (checkAndSetAllowance env token spender amount).result = .ok b) :
    (R ≤ A ∧ b = false ∧ (checkAndSetAllowance env token spender amount).calls
        = [Call.allowance token env.walletAddress spender]) ∨
    (A < R ∧ b = true ∧ ∃ g tx blk,
      env.approve token spender MaxUint256 100000 g = .ok tx ∧ env.wait tx 1 = .ok blk ∧
      (checkAndSetAllowance env token spender amount).calls
        = [Call.allowance token env.walletAddress spender, Call.getGasPrice,
            Call.approve token spender MaxUint256 100000 g, Call.wait tx 1]) := by
  by_cases hlt : A < R
  · right
    cases hg : env.getGasPrice with
    | error e => simp [checkAndSetAllowance, hA, hR, hlt, hg] at hfirst
    | ok g =>
      cases htx : env.approve token spender MaxUint256 100000 g with
      | error e => simp [checkAndSetAllowance, hA, hR, hlt, hg, htx] at hfirst
      | ok tx =>
        cases hw : env.wait tx 1 with
        | error e => simp [checkAndSetAllowance, hA, hR, hlt, hg, htx, hw] at hfirst
        | ok blk =>
          simp [checkAndSetAllowance, hA, hR, hlt, hg, htx, hw] at hfirst
          refine ⟨hlt, hfirst, g, tx, blk, htx, hw, ?_⟩
          simp [checkAndSetAllowance, hA, hR, hlt, hg, htx, hw]
  · left
    have hb : b = false := by
      simp [checkAndSetAllowance, hA, hR, hlt] at hfirst
      exact hfirst
    exact ⟨Nat.le_of_not_lt hlt, hb, by simp [checkAndSetAllowance, hA, hR, hlt]⟩

/-- C7: on a ledger where a confirmed `approve(spender, x)` on a token sets the
allowance of (owner, spender) on that token to `x` and nothing else, take a
first call that reads its allowance from the ledger and returns, and a second
call with the same token, owner, spender and required amount `R ≤ MaxUint256`
that reads the ledger the first call left.  That ledger holds at least `R` for
(token, owner, spender), `MaxUint256` if the first call approved and the old
value if it did not, and is unchanged elsewhere; the second call makes the
allowance read only, sends no transaction and returns false. -/
theorem checkAndSetAllowance_second_call_noop (env1 env2 : Env) (ledger : Ledger)
    (token spender : String) (amount : BigNumberish) (R : Nat) (b : Bool)
    (hR : BigNumber.from amount = .ok R) (hmax : R ≤ MaxUint256)
    (hread1 : env1.allowance token env1.walletAddress spender
      = .ok (ledger token env1.walletAddress spender))
    (hfirst : (checkAndSetAllowance env1 token spender amount).result = .ok b)
    (howner : env2.walletAddress = env1.walletAddress)
    (hread2 : env2.allowance token env2.walletAddress spender
      = .ok (ledgerAfter env1 env1.walletAddress
          (checkAndSetAllowance env1 token spender amount).calls ledger
          token env1.walletAddress spender)) :
    R ≤ ledgerAfter env1 env1.walletAddress
        (checkAndSetAllowance env1 token spender amount).calls ledger
        token env1.walletAddress spender ∧
    (b = true → ledgerAfter env1 env1.walletAddress
        (checkAndSetAllowance env1 token spender amount).calls ledger
        token env1.walletAddress spender = MaxUint256) ∧
    (b = false → ledgerAfter env1 env1.walletAddress
        (checkAndSetAllowance env1 token spender amount).calls ledger = ledger) ∧
    (∀ t o s, ¬ (t = token ∧ o = env1.walletAddress ∧ s = spender) →
      ledgerAfter env1 env1.walletAddress
        (checkAndSetAllowance env1 token spender amount).calls ledger t o s = ledger t o s) ∧
    checkAndSetAllowance env2 token spender amount
      = ⟨[Call.allowance token env1.walletAddress spender], .ok false⟩ ∧
    approvals (checkAndSetAllowance env2 token spender amount).calls = [] := by
  have key : R ≤ ledgerAfter env1 env1.walletAddress
        (checkAndSetAllowance env1 token spender amount).calls ledger
        token env1.walletAddress spender ∧
      (b = true → ledgerAfter env1 env1.walletAddress
        (checkAndSetAllowance env1 token spender amount).calls ledger
        token env1.walletAddress spender = MaxUint256) ∧
      (b = false → ledgerAfter env1 env1.walletAddress
        (checkAndSetAllowance env1 token spender amount).calls ledger = ledger) ∧
      (∀ t o s, ¬ (t = token ∧ o = env1.walletAddress ∧ s = spender) →
        ledgerAfter env1 env1.walletAddress
          (checkAndSetAllowance env1 token spender amount).calls ledger t o s
            = ledger t o s) := by
    rcases checkAndSetAllowance_returned env1 token spender amount R _ b hread1 hR hfirst with
      ⟨hle, hb, hcalls⟩ | ⟨hlt, hb, g, tx, blk, htx, hw, hcalls⟩
    · rw [hcalls]
      simp [ledgerAfter, hle, hb]
    · rw [hcalls]
      simp [ledgerAfter, htx, hw, Ledger.approve, hmax, hb]
      intro t o s hne h1 h2 h3
      exact absurd h3 (hne h1 h2)
  have hsecond : checkAndSetAllowance env2 token spender amount
      = ⟨[Call.allowance token env1.walletAddress spender], .ok false⟩ := by
    have hle := key.1
    rw [howner] at hread2
    generalize ledgerAfter env1 env1.walletAddress
      (checkAndSetAllowance env1 token spender amount).calls ledger
      token env1.walletAddress spender = L at hread2 hle
    simp [checkAndSetAllowance, howner, hread2, hR, Nat.not_lt.mpr hle]
  refine ⟨key.1, key.2.1, key.2.2.1, key.2.2.2, hsecond, ?_⟩
  rw [hsecond]
  simp [approvals, Call.isApprove]

/-- Witness for `checkAndSetAllowance_second_call_noop`: the first call raises
the allowance of the relayer on WETH from 0, the second finds it at its
maximum. -/
theorem checkAndSetAllowance_second_call_noop_witness :
    checkAndSetAllowance approvedEnv WETH_ADDRESS COW_VAULT_RELAYER
        (BigNumberish.str "10000000000000000")
      = ⟨[Call.allowance WETH_ADDRESS sampleEnv.walletAddress COW_VAULT_RELAYER], .ok false⟩ :=
  (checkAndSetAllowance_second_call_noop sampleEnv approvedEnv emptyLedger WETH_ADDRESS
    COW_VAULT_RELAYER (BigNumberish.str "10000000000000000") (10 ^ 16) true (by decide)
    (by decide) (by decide) (by decide) rfl (by decide)).2.2.2.2.1

/-! ## `run`: auxiliary facts -/

theorem parseUnits_amount : parseUnits "0.01" 18 = .ok 10000000000000000 := by decide

theorem toString_amount : toString (10000000000000000 : Nat) = "10000000000000000" := by
  decide

theorem bigNumber_amount :
    BigNumber.from (BigNumberish.str "10000000000000000") = .ok 10000000000000000 := by
  decide

/-- The body of `run` with the amount evaluated. -/
theorem run_eq (env : Env) :
    run env =
      match env.chainId with
      | .error e => ⟨[Call.ethChainId], .error e⟩
      | .ok chainId =>
        if chainId ≠ 1 then ⟨[Call.ethChainId], .error (networkMismatchMessage chainId)⟩
        else
          match env.getAddress with
          | .error e => ⟨[Call.ethChainId, Call.getAddress], .error e⟩
          | .ok ownerAddress =>
            match env.getQuote
              (quoteRequest WETH_ADDRESS USDT_ADDRESS ownerAddress "10000000000000000") with
            | .error e => ⟨[Call.ethChainId, Call.getAddress, Call.getQuote
                (quoteRequest WETH_ADDRESS USDT_ADDRESS ownerAddress "10000000000000000")],
                .error e⟩
            | .ok quote => runAfterQuote env ownerAddress quote := by
  unfold run runAfterQuote
  simp only [parseUnits_amount, toString_amount, SupportedChainId.MAINNET]
  cases env.chainId with
  | error e => rfl
  | ok c =>
    by_cases hc : c = 1
    · subst hc
      simp
    · simp [hc]

/-- The calls of `checkAndSetAllowance` are contract and provider calls. -/
theorem checkAndSetAllowance_calls_stage (env : Env) (token spender : String)
    (amount : BigNumberish) (c : Call)
    (h : c ∈ (checkAndSetAllowance env token spender amount).calls) :
    c.stage = Stage.allowanceRead ∨ c.stage = Stage.gasPrice ∨ c.stage = Stage.approve ∨
      c.stage = Stage.confirm := by
  rcases hA : env.allowance token env.walletAddress spender with e | A
  · simp [checkAndSetAllowance, hA] at h; subst h; simp [Call.stage]
  rcases hR : BigNumber.from amount with e | R
  · simp [checkAndSetAllowance, hA, hR] at h; subst h; simp [Call.stage]
  by_cases hlt : A < R
  swap
  · simp [checkAndSetAllowance, hA, hR, hlt] at h; subst h; simp [Call.stage]
  rcases hg : env.getGasPrice with e | g
  · simp [checkAndSetAllowance, hA, hR, hlt, hg] at h
    rcases h with h | h <;> subst h <;> simp [Call.stage]
  rcases htx : env.approve token spender MaxUint256 100000 g with e | tx
  · simp [checkAndSetAllowance, hA, hR, hlt, hg, htx] at h
    rcases h with h | h | h <;> subst h <;> simp [Call.stage]
  rcases hw : env.wait tx 1 with e | blk
  · simp [checkAndSetAllowance, hA, hR, hlt, hg, htx, hw] at h
    rcases h with h | h | h | h <;> subst h <;> simp [Call.stage]
  · simp [checkAndSetAllowance, hA, hR, hlt, hg, htx, hw] at h
    rcases h with h | h | h | h <;> subst h <;> simp [Call.stage]

/-- A run that signs has passed the network check, the address read, the quote
and the allowance step, and signs the order built from the quote. -/
theorem signOrder_mem_run (env : Env) (order : Obj) (chainId : Nat)
    (h : Call.signOrder order chainId ∈ (run env).calls) :
    ∃ owner quote b,
      env.chainId = .ok 1 ∧ env.getAddress = .ok owner ∧
      env.getQuote (quoteRequest WETH_ADDRESS USDT_ADDRESS owner "10000000000000000")
        = .ok quote ∧
      (checkAndSetAllowance env WETH_ADDRESS COW_VAULT_RELAYER
        (BigNumberish.str "10000000000000000")).result = .ok b ∧
      order = buildOrder quote "10000000000000000" owner ∧ chainId = 1 := by
  rw [run_eq] at h
  rcases hc : env.chainId with e | c
  · simp [hc] at h
  by_cases h1 : c = 1
  swap
  · simp [hc, h1] at h
  subst h1
  rcases ha : env.getAddress with e | owner
  · simp [hc, ha] at h
  rcases hq : env.getQuote
    (quoteRequest WETH_ADDRESS USDT_ADDRESS owner "10000000000000000") with e | quote
  · simp [hc, ha, hq] at h
  simp only [hc, ha, hq, runAfterQuote] at h
  have hstage := checkAndSetAllowance_calls_stage env WETH_ADDRESS COW_VAULT_RELAYER
    (BigNumberish.str "10000000000000000") (Call.signOrder order chainId)
  rcases hr : (checkAndSetAllowance env WETH_ADDRESS COW_VAULT_RELAYER
    (BigNumberish.str "10000000000000000")).result with e | b
  · simp only [hr] at h
    simp [Call.stage] at h hstage
    exact absurd h hstage
  refine ⟨owner, quote, b, rfl, rfl, hq, rfl, ?_⟩
  simp only [hr] at h
  have hmem : Call.signOrder order chainId ∈
      [Call.ethChainId, Call.getAddress, Call.getQuote
        (quoteRequest WETH_ADDRESS USDT_ADDRESS owner "10000000000000000")] ++
      (checkAndSetAllowance env WETH_ADDRESS COW_VAULT_RELAYER
        (BigNumberish.str "10000000000000000")).calls ++
      [Call.signOrder (buildOrder quote "10000000000000000" owner) 1] := by
    rcases hs : env.signOrder (buildOrder quote "10000000000000000" owner) 1 with e | sig
    · simpa [hs] using h
    · rcases hsend : env.sendOrder
        (buildPayload quote (buildOrder quote "10000000000000000" owner) sig) with e | id <;>
      simpa [hs, hsend] using h
  simp [Call.stage] at hmem hstage
  rcases hmem with hmem | hmem
  · exact absurd hmem hstage
  · exact hmem

/-- A run that submits has signed, and submits the payload built from the
quote, the order and the signing result. -/
theorem sendOrder_mem_run (env : Env) (payload : Obj)
    (h : Call.sendOrder payload ∈ (run env).calls) :
    ∃ owner quote b sig,
      env.chainId = .ok 1 ∧ env.getAddress = .ok owner ∧
      env.getQuote (quoteRequest WETH_ADDRESS USDT_ADDRESS owner "10000000000000000")
        = .ok quote ∧
      (checkAndSetAllowance env WETH_ADDRESS COW_VAULT_RELAYER
        (BigNumberish.str "10000000000000000")).result = .ok b ∧
      env.signOrder (buildOrder quote "10000000000000000" owner) 1 = .ok sig ∧
      payload = buildPayload quote (buildOrder quote "10000000000000000" owner) sig ∧
      (run env).calls =
        [Call.ethChainId, Call.getAddress, Call.getQuote
          (quoteRequest WETH_ADDRESS USDT_ADDRESS owner "10000000000000000")] ++
        (checkAndSetAllowance env WETH_ADDRESS COW_VAULT_RELAYER
          (BigNumberish.str "10000000000000000")).calls ++
        [Call.signOrder (buildOrder quote "10000000000000000" owner) 1,
         Call.sendOrder payload] := by
  rw [run_eq] at h ⊢
  rcases hc : env.chainId with e | c
  · simp [hc] at h
  by_cases h1 : c = 1
  swap
  · simp [hc, h1] at h
  subst h1
  rcases ha : env.getAddress with e | owner
  · simp [hc, ha] at h
  rcases hq : env.getQuote
    (quoteRequest WETH_ADDRESS USDT_ADDRESS owner "10000000000000000") with e | quote
  · simp [hc, ha, hq] at h
  simp only [hc, ha, hq, runAfterQuote] at h
  have hstage := checkAndSetAllowance_calls_stage env WETH_ADDRESS COW_VAULT_RELAYER
    (BigNumberish.str "10000000000000000") (Call.sendOrder payload)
  simp only [Call.stage] at hstage
  have hnot : Call.sendOrder payload ∉ (checkAndSetAllowance env WETH_ADDRESS
      COW_VAULT_RELAYER (BigNumberish.str "10000000000000000")).calls := by
    intro hm
    have := hstage hm
    simp at this
  rcases hr : (checkAndSetAllowance env WETH_ADDRESS COW_VAULT_RELAYER
    (BigNumberish.str "10000000000000000")).result with e | b
  · simp [hr, hnot] at h
  rcases hs : env.signOrder (buildOrder quote "10000000000000000" owner) 1 with e | sig
  · simp [hr, hs, hnot] at h
  have hp : payload = buildPayload quote (buildOrder quote "10000000000000000" owner) sig := by
    rcases hsend : env.sendOrder
      (buildPayload quote (buildOrder quote "10000000000000000" owner) sig) with e | id <;>
    simpa [hr, hs, hsend, hnot] using h
  refine ⟨owner, quote, b, sig, rfl, rfl, hq, rfl, hs, hp, ?_⟩
  subst hp
  simp only [if_neg, ne_eq, not_true_eq_false, not_false_eq_true, hq, runAfterQuote, hr, hs]
  rcases hsend : env.sendOrder
    (buildPayload quote (buildOrder quote "10000000000000000" owner) sig) with e | id <;>
  simp

/-- Reading a property after a write. -/
theorem Obj.get_set (o : Obj) (k k2 : String) (v : Val) :
    (Obj.set o k v).get k2 = if k2 = k then v else o.get k2 := by
  by_cases h : k2 = k
  · simp [Obj.get, Obj.set, List.lookup, h]
  · have hb : (k2 == k) = false := by simp [h]
    simp [Obj.get, Obj.set, List.lookup, h, hb]

/-- The fields of the order of lines 125-130. -/
theorem buildOrder_get (quote : Obj) (sellAmount ownerAddress k : String) :
    (buildOrder quote sellAmount ownerAddress).get k =
      if k = "receiver" then Val.str ownerAddress
      else if k = "feeAmount" then Val.str "0"
      else if k = "sellAmount" then Val.str sellAmount
      else quote.get k := by
  simp [buildOrder, Obj.get_set]

/-- The fields of the payload of lines 140-146. -/
theorem buildPayload_get (quote order : Obj) (sig : SigningResult) (k : String) :
    (buildPayload quote order sig).get k =
      if k = "signingScheme" then Val.str sig.signingScheme
      else if k = "feeAmount" then order.get "feeAmount"
      else if k = "sellAmount" then order.get "sellAmount"
      else if k = "signature" then Val.str sig.signature
      else quote.get k := by
  by_cases h1 : k = "signingScheme"
  · simp [buildPayload, Obj.get_set, h1]
  by_cases h2 : k = "feeAmount"
  · simp [buildPayload, Obj.get_set, h2]
  by_cases h3 : k = "sellAmount"
  · simp [buildPayload, Obj.get_set, h3]
  by_cases h4 : k = "signature"
  · simp [buildPayload, Obj.get_set, h4, Obj.spread, SigningResult.toObj, Obj.get, List.lookup]
  · have hb1 : (k == "signingScheme") = false := by simp [h1]
    have hb4 : (k == "signature") = false := by simp [h4]
    simp [buildPayload, Obj.get_set, h1, h2, h3, Obj.spread, SigningResult.toObj]
    simp [Obj.get, List.lookup, hb1, hb4, h4]

/-! ## `run`: theorems -/

/-- C2: when the provider reports a chain id other than mainnet, `run` fails
with the network mismatch error of line 73 and its only call is the chain id
read: no address read, quote request, allowance read, approval, signing or
submission. -/
theorem run_network_mismatch (env : Env) (chainId : Nat)
    (hchain : env.chainId = .ok chainId) (hne : chainId ≠ SupportedChainId.MAINNET) :
    run env = ⟨[Call.ethChainId], .error (networkMismatchMessage chainId)⟩ := by
  simp [run, hchain, hne]

/-- Witness for `run_network_mismatch`: chain id 5. -/
theorem run_network_mismatch_witness :
    run wrongChainEnv
      = ⟨[Call.ethChainId], .error "Please connect to mainnet. ChainId: 5"⟩ :=
  run_network_mismatch wrongChainEnv 5 rfl (by decide)

/-- C3 (as stated, refuted): the quote carries the receiver `0xb0b`, the order
that is signed carries the wallet address instead. -/
theorem run_order_replaces_receiver :
    sampleEnv.getQuote
        (quoteRequest WETH_ADDRESS USDT_ADDRESS "0xA11ce" "10000000000000000")
      = .ok sampleQuote ∧
    Call.signOrder (buildOrder sampleQuote "10000000000000000" "0xA11ce") 1
      ∈ (run sampleEnv).calls ∧
    sampleQuote.get "receiver" = Val.str "0xb0b" ∧
    (buildOrder sampleQuote "10000000000000000" "0xA11ce").get "receiver"
      = Val.str "0xA11ce" := by
  decide

/-- C3 (amended): the order that `run` signs is built from the quote the service
returned; its `feeAmount` is the string "0", its `sellAmount` is the amount
string of line 87, its `receiver` is the wallet address, and every other field
has the value the quote gives it. -/
theorem run_order_fields (env : Env) (order : Obj) (chainId : Nat)
    (h : Call.signOrder order chainId ∈ (run env).calls) :
    ∃ owner quote,
      env.getAddress = .ok owner ∧
      env.getQuote (quoteRequest WETH_ADDRESS USDT_ADDRESS owner "10000000000000000")
        = .ok quote ∧
      order.get "feeAmount" = Val.str "0" ∧
      order.get "sellAmount" = Val.str "10000000000000000" ∧
      order.get "receiver" = Val.str owner ∧
      ∀ k, k ≠ "feeAmount" → k ≠ "sellAmount" → k ≠ "receiver" →
        order.get k = quote.get k := by
  obtain ⟨owner, quote, b, -, ha, hq, -, ho, -⟩ := signOrder_mem_run env order chainId h
  subst ho
  refine ⟨owner, quote, ha, hq, ?_, ?_, ?_, ?_⟩
  · simp [buildOrder_get]
  · simp [buildOrder_get]
  · simp [buildOrder_get]
  · intro k h1 h2 h3
    simp [buildOrder_get, h1, h2, h3]

/-- Witness for `run_order_fields`: the order signed in the sample world keeps
the quote's `buyAmount`. -/
theorem run_order_fields_witness :
    ∃ owner quote,
      sampleEnv.getAddress = .ok owner ∧
      sampleEnv.getQuote (quoteRequest WETH_ADDRESS USDT_ADDRESS owner "10000000000000000")
        = .ok quote ∧
      (buildOrder sampleQuote "10000000000000000" "0xA11ce").get "feeAmount" = Val.str "0" ∧
      (buildOrder sampleQuote "10000000000000000" "0xA11ce").get "sellAmount"
        = Val.str "10000000000000000" ∧
      (buildOrder sampleQuote "10000000000000000" "0xA11ce").get "receiver" = Val.str owner ∧
      ∀ k, k ≠ "feeAmount" → k ≠ "sellAmount" → k ≠ "receiver" →
        (buildOrder sampleQuote "10000000000000000" "0xA11ce").get k = quote.get k :=
  run_order_fields sampleEnv (buildOrder sampleQuote "10000000000000000" "0xA11ce") 1
    (by decide)

/-- C8: in every run that reaches submission the quote request carries the
amount string of line 87 as `sellAmountBeforeFee`, the allowance check is called
with that string, and the signed order and the submitted payload carry it as
`sellAmount`; the string is "10000000000000000", the decimal form of
`parseUnits("0.01", 18)`, which `BigNumber.from` reads as `10 ^ 16`. -/
theorem run_sellAmount_same (env : Env) (payload : Obj)
    (h : Call.sendOrder payload ∈ (run env).calls) :
    ∃ request order b,
      (run env).calls =
        [Call.ethChainId, Call.getAddress, Call.getQuote request] ++
        (checkAndSetAllowance env WETH_ADDRESS COW_VAULT_RELAYER
          (BigNumberish.str "10000000000000000")).calls ++
        [Call.signOrder order 1, Call.sendOrder payload] ∧
      (checkAndSetAllowance env WETH_ADDRESS COW_VAULT_RELAYER
        (BigNumberish.str "10000000000000000")).result = .ok b ∧
      request.get "sellAmountBeforeFee" = Val.str "10000000000000000" ∧
      order.get "sellAmount" = Val.str "10000000000000000" ∧
      payload.get "sellAmount" = Val.str "10000000000000000" ∧
      (parseUnits "0.01" 18).map toString = .ok "10000000000000000" ∧
      BigNumber.from (BigNumberish.str "10000000000000000") = .ok (10 ^ 16) := by
  obtain ⟨owner, quote, b, sig, -, -, -, hr, -, hp, hcalls⟩ := sendOrder_mem_run env payload h
  refine ⟨_, _, b, hcalls, hr, ?_, ?_, ?_, ?_, ?_⟩
  · simp [quoteRequest, Obj.get, List.lookup]
  · simp [buildOrder_get]
  · subst hp
    simp [buildPayload_get, buildOrder_get]
  · decide
  · decide

/-- Witness for `run_sellAmount_same`: the sample world reaches submission. -/
theorem run_sellAmount_same_witness :
    ∃ request order b,
      (run sampleEnv).calls =
        [Call.ethChainId, Call.getAddress, Call.getQuote request] ++
        (checkAndSetAllowance sampleEnv WETH_ADDRESS COW_VAULT_RELAYER
          (BigNumberish.str "10000000000000000")).calls ++
        [Call.signOrder order 1, Call.sendOrder
          (buildPayload sampleQuote (buildOrder sampleQuote "10000000000000000" "0xA11ce")
            ⟨"0xsig", "eip712"⟩)] ∧
      (checkAndSetAllowance sampleEnv WETH_ADDRESS COW_VAULT_RELAYER
        (BigNumberish.str "10000000000000000")).result = .ok b ∧
      request.get "sellAmountBeforeFee" = Val.str "10000000000000000" ∧
      order.get "sellAmount" = Val.str "10000000000000000" ∧
      (buildPayload sampleQuote (buildOrder sampleQuote "10000000000000000" "0xA11ce")
        ⟨"0xsig", "eip712"⟩).get "sellAmount" = Val.str "10000000000000000" ∧
      (parseUnits "0.01" 18).map toString = .ok "10000000000000000" ∧
      BigNumber.from (BigNumberish.str "10000000000000000") = .ok (10 ^ 16) :=
  run_sellAmount_same sampleEnv
    (buildPayload sampleQuote (buildOrder sampleQuote "10000000000000000" "0xA11ce")
      ⟨"0xsig", "eip712"⟩) (by decide)

/-- The payload takes `sellAmount` and `feeAmount` from the order and every
other field, `receiver` included, from the quote and the signing result. -/
theorem run_payload_fields (env : Env) (payload : Obj)
    (h : Call.sendOrder payload ∈ (run env).calls) :
    ∃ owner quote, ∃ sig : SigningResult,
      env.getAddress = .ok owner ∧
      Call.signOrder (buildOrder quote "10000000000000000" owner) 1 ∈ (run env).calls ∧
      payload.get "sellAmount"
        = (buildOrder quote "10000000000000000" owner).get "sellAmount" ∧
      payload.get "feeAmount"
        = (buildOrder quote "10000000000000000" owner).get "feeAmount" ∧
      payload.get "signature" = Val.str sig.signature ∧
      payload.get "signingScheme" = Val.str sig.signingScheme ∧
      (∀ k, k ≠ "receiver" → k ≠ "signature" → k ≠ "signingScheme" →
        payload.get k = (buildOrder quote "10000000000000000" owner).get k) ∧
      payload.get "receiver" = quote.get "receiver" ∧
      (buildOrder quote "10000000000000000" owner).get "receiver" = Val.str owner := by
  obtain ⟨owner, quote, b, sig, -, ha, -, -, -, hp, hcalls⟩ := sendOrder_mem_run env payload h
  subst hp
  refine ⟨owner, quote, sig, ha, ?_, ?_, ?_, ?_, ?_, ?_, ?_, ?_⟩
  · rw [hcalls]; simp
  · simp [buildPayload_get]
  · simp [buildPayload_get]
  · simp [buildPayload_get]
  · simp [buildPayload_get]
  · intro k h1 h2 h3
    by_cases h4 : k = "feeAmount"
    · simp [buildPayload_get, h4]
    by_cases h5 : k = "sellAmount"
    · simp [buildPayload_get, h5]
    simp [buildPayload_get, buildOrder_get, h1, h2, h3, h4, h5]
  · simp [buildPayload_get]
  · simp [buildOrder_get]

/-- C9 (the code at a failing input): for a quote without a `receiver` the
order that is signed has the wallet address as `receiver`, while the payload
that is submitted has no `receiver`. -/
theorem run_payload_receiver_differs :
    Call.signOrder (buildOrder plainQuote "10000000000000000" "0xA11ce") 1
      ∈ (run plainQuoteEnv).calls ∧
    (run plainQuoteEnv).calls.getLast?
      = some (Call.sendOrder
          (buildPayload plainQuote (buildOrder plainQuote "10000000000000000" "0xA11ce")
            ⟨"0xsig", "eip712"⟩)) ∧
    (buildOrder plainQuote "10000000000000000" "0xA11ce").get "receiver"
      = Val.str "0xA11ce" ∧
    (buildPayload plainQuote (buildOrder plainQuote "10000000000000000" "0xA11ce")
      ⟨"0xsig", "eip712"⟩).get "receiver" = Val.undefined := by
  decide

theorem failure_ethChainId (env : Env) :
    env.failure Call.ethChainId = rejection env.chainId := rfl

theorem failure_getAddress (env : Env) :
    env.failure Call.getAddress = rejection env.getAddress := rfl

theorem failure_getQuote (env : Env) (request : Obj) :
    env.failure (Call.getQuote request) = rejection (env.getQuote request) := rfl

theorem failure_allowance (env : Env) (token owner spender : String) :
    env.failure (Call.allowance token owner spender)
      = rejection (env.allowance token owner spender) := rfl

theorem failure_getGasPrice (env : Env) :
    env.failure Call.getGasPrice = rejection env.getGasPrice := rfl

theorem failure_approve (env : Env) (token spender : String) (amount gasLimit gasPrice : Nat) :
    env.failure (Call.approve token spender amount gasLimit gasPrice)
      = rejection (env.approve token spender amount gasLimit gasPrice) := rfl

theorem failure_wait (env : Env) (txHash : String) (confirmations : Nat) :
    env.failure (Call.wait txHash confirmations) = rejection (env.wait txHash confirmations) :=
  rfl

theorem failure_signOrder (env : Env) (order : Obj) (chainId : Nat) :
    env.failure (Call.signOrder order chainId) = rejection (env.signOrder order chainId) := rfl

theorem failure_sendOrder (env : Env) (payload : Obj) :
    env.failure (Call.sendOrder payload) = rejection (env.sendOrder payload) := rfl

/-- C10: a run always starts with the network check, and its calls are an
initial segment of network check, address read, quote request, allowance read,
(gas price read, approve, confirmation wait,) signing, submission, each at most
once and in this order.  Every call but the last succeeded; when the last call
failed the run fails with that error; when the last call succeeded the run
either stopped on a chain other than mainnet right after the network check or
it ended with `sendOrder` and returns an order id, so a run stops early only on
a failure.  A run returns an order id only as the answer to a final
`sendOrder`; a run that submits has before it the complete allowance step,
which returned, and the signing of the order built from the quote; and when
network check, address read, quote, allowance step and signing succeed the
calls are exactly these stages followed by `sendOrder`, whose answer is the
result. -/
theorem run_pipeline (env : Env) :
    (run env).calls.head? = some Call.ethChainId ∧
    (List.map Call.stage (run env).calls <+: pipelineWithApproval ∨
      List.map Call.stage (run env).calls <+: pipelineWithoutApproval) ∧
    (∀ c ∈ (run env).calls.dropLast, env.failure c = none) ∧
    (∀ c, (run env).calls.getLast? = some c → ∀ e, env.failure c = some e →
      (run env).result = .error e) ∧
    (∀ c, (run env).calls.getLast? = some c → env.failure c = none →
      (∃ chainId, env.chainId = .ok chainId ∧ chainId ≠ SupportedChainId.MAINNET ∧
        (run env).calls = [Call.ethChainId]) ∨
      (∃ payload orderId, c = Call.sendOrder payload ∧ (run env).result = .ok orderId)) ∧
    (∀ orderId, (run env).result = .ok orderId →
      ∃ payload, (run env).calls.getLast? = some (Call.sendOrder payload) ∧
        env.sendOrder payload = .ok orderId) ∧
    (∀ payload, Call.sendOrder payload ∈ (run env).calls →
      ∃ owner quote b, ∃ sig : SigningResult,
        env.getAddress = .ok owner ∧
        env.getQuote (quoteRequest WETH_ADDRESS USDT_ADDRESS owner "10000000000000000")
          = .ok quote ∧
        (checkAndSetAllowance env WETH_ADDRESS COW_VAULT_RELAYER
          (BigNumberish.str "10000000000000000")).result = .ok b ∧
        env.signOrder (buildOrder quote "10000000000000000" owner) 1 = .ok sig ∧
        payload = buildPayload quote (buildOrder quote "10000000000000000" owner) sig ∧
        (run env).calls =
          [Call.ethChainId, Call.getAddress, Call.getQuote
            (quoteRequest WETH_ADDRESS USDT_ADDRESS owner "10000000000000000")] ++
          (checkAndSetAllowance env WETH_ADDRESS COW_VAULT_RELAYER
            (BigNumberish.str "10000000000000000")).calls ++
          [Call.signOrder (buildOrder quote "10000000000000000" owner) 1,
           Call.sendOrder payload]) ∧
    (∀ owner quote b, ∀ sig : SigningResult,
      env.chainId = .ok SupportedChainId.MAINNET →
      env.getAddress = .ok owner →
      env.getQuote (quoteRequest WETH_ADDRESS USDT_ADDRESS owner "10000000000000000")
        = .ok quote →
      (checkAndSetAllowance env WETH_ADDRESS COW_VAULT_RELAYER
        (BigNumberish.str "10000000000000000")).result = .ok b →
      env.signOrder (buildOrder quote "10000000000000000" owner) 1 = .ok sig →
      (run env).calls =
        [Call.ethChainId, Call.getAddress, Call.getQuote
          (quoteRequest WETH_ADDRESS USDT_ADDRESS owner "10000000000000000")] ++
        (checkAndSetAllowance env WETH_ADDRESS COW_VAULT_RELAYER
          (BigNumberish.str "10000000000000000")).calls ++
        [Call.signOrder (buildOrder quote "10000000000000000" owner) 1,
         Call.sendOrder
          (buildPayload quote (buildOrder quote "10000000000000000" owner) sig)] ∧
      (run env).result
        = env.sendOrder
            (buildPayload quote (buildOrder quote "10000000000000000" owner) sig)) := by
  have main :
      (run env).calls.head? = some Call.ethChainId ∧
      (List.map Call.stage (run env).calls <+: pipelineWithApproval ∨
        List.map Call.stage (run env).calls <+: pipelineWithoutApproval) ∧
      (∀ c ∈ (run env).calls.dropLast, env.failure c = none) ∧
      (∀ c, (run env).calls.getLast? = some c → ∀ e, env.failure c = some e →
        (run env).result = .error e) ∧
      (∀ c, (run env).calls.getLast? = some c → env.failure c = none →
        (∃ chainId, env.chainId = .ok chainId ∧ chainId ≠ SupportedChainId.MAINNET ∧
          (run env).calls = [Call.ethChainId]) ∨
        (∃ payload orderId, c = Call.sendOrder payload ∧ (run env).result = .ok orderId)) ∧
      (∀ orderId, (run env).result = .ok orderId →
        ∃ payload, (run env).calls.getLast? = some (Call.sendOrder payload) ∧
          env.sendOrder payload = .ok orderId) := by
    rw [run_eq]
    rcases hc : env.chainId with e | c
    · simp [Call.stage, pipelineWithApproval, pipelineWithoutApproval, failure_ethChainId,
        rejection, SupportedChainId.MAINNET, hc]
    by_cases h1 : c = 1
    swap
    · simp [Call.stage, pipelineWithApproval, pipelineWithoutApproval, failure_ethChainId,
        rejection, SupportedChainId.MAINNET, hc, h1]
    subst h1
    rcases ha : env.getAddress with e | owner
    · simp [Call.stage, pipelineWithApproval, pipelineWithoutApproval, failure_ethChainId,
        failure_getAddress, rejection, SupportedChainId.MAINNET, hc, ha]
    rcases hq : env.getQuote
      (quoteRequest WETH_ADDRESS USDT_ADDRESS owner "10000000000000000") with e | quote
    · simp [Call.stage, pipelineWithApproval, pipelineWithoutApproval, failure_ethChainId,
        failure_getAddress, failure_getQuote, rejection, SupportedChainId.MAINNET, hc, ha, hq]
    rcases hal : env.allowance WETH_ADDRESS env.walletAddress COW_VAULT_RELAYER with e | A
    · simp [Call.stage, pipelineWithApproval, pipelineWithoutApproval, failure_ethChainId,
        failure_getAddress, failure_getQuote, failure_allowance, failure_getGasPrice,
        failure_approve, failure_wait, failure_signOrder, failure_sendOrder, rejection, SupportedChainId.MAINNET,
        runAfterQuote, checkAndSetAllowance, bigNumber_amount, *]
    by_cases hlt : A < 10000000000000000
    swap
    · rcases hs : env.signOrder (buildOrder quote "10000000000000000" owner) 1 with e | sig
      · simp [Call.stage, pipelineWithApproval, pipelineWithoutApproval, failure_ethChainId,
        failure_getAddress, failure_getQuote, failure_allowance, failure_getGasPrice,
        failure_approve, failure_wait, failure_signOrder, failure_sendOrder, rejection, SupportedChainId.MAINNET,
        runAfterQuote, checkAndSetAllowance, bigNumber_amount, *]
      rcases hsend : env.sendOrder
        (buildPayload quote (buildOrder quote "10000000000000000" owner) sig) with e | id
      · simp [Call.stage, pipelineWithApproval, pipelineWithoutApproval, failure_ethChainId,
        failure_getAddress, failure_getQuote, failure_allowance, failure_getGasPrice,
        failure_approve, failure_wait, failure_signOrder, failure_sendOrder, rejection, SupportedChainId.MAINNET,
        runAfterQuote, checkAndSetAllowance, bigNumber_amount, *]
      · simp [Call.stage, pipelineWithApproval, pipelineWithoutApproval, failure_ethChainId,
        failure_getAddress, failure_getQuote, failure_allowance, failure_getGasPrice,
        failure_approve, failure_wait, failure_signOrder, failure_sendOrder, rejection, SupportedChainId.MAINNET,
        runAfterQuote, checkAndSetAllowance, bigNumber_amount, *]
    rcases hg : env.getGasPrice with e | g
    · simp [Call.stage, pipelineWithApproval, pipelineWithoutApproval, failure_ethChainId,
        failure_getAddress, failure_getQuote, failure_allowance, failure_getGasPrice,
        failure_approve, failure_wait, failure_signOrder, failure_sendOrder, rejection, SupportedChainId.MAINNET,
        runAfterQuote, checkAndSetAllowance, bigNumber_amount, *]
    rcases htx : env.approve WETH_ADDRESS COW_VAULT_RELAYER MaxUint256 100000 g with e | tx
    · simp [Call.stage, pipelineWithApproval, pipelineWithoutApproval, failure_ethChainId,
        failure_getAddress, failure_getQuote, failure_allowance, failure_getGasPrice,
        failure_approve, failure_wait, failure_signOrder, failure_sendOrder, rejection, SupportedChainId.MAINNET,
        runAfterQuote, checkAndSetAllowance, bigNumber_amount, *]
    rcases hw : env.wait tx 1 with e | blk
    · simp [Call.stage, pipelineWithApproval, pipelineWithoutApproval, failure_ethChainId,
        failure_getAddress, failure_getQuote, failure_allowance, failure_getGasPrice,
        failure_approve, failure_wait, failure_signOrder, failure_sendOrder, rejection, SupportedChainId.MAINNET,
        runAfterQuote, checkAndSetAllowance, bigNumber_amount, *]
    rcases hs : env.signOrder (buildOrder quote "10000000000000000" owner) 1 with e | sig
    · simp [Call.stage, pipelineWithApproval, pipelineWithoutApproval, failure_ethChainId,
        failure_getAddress, failure_getQuote, failure_allowance, failure_getGasPrice,
        failure_approve, failure_wait, failure_signOrder, failure_sendOrder, rejection, SupportedChainId.MAINNET,
        runAfterQuote, checkAndSetAllowance, bigNumber_amount, *]
    rcases hsend : env.sendOrder
      (buildPayload quote (buildOrder quote "10000000000000000" owner) sig) with e | id
    · simp [Call.stage, pipelineWithApproval, pipelineWithoutApproval, failure_ethChainId,
        failure_getAddress, failure_getQuote, failure_allowance, failure_getGasPrice,
        failure_approve, failure_wait, failure_signOrder, failure_sendOrder, rejection, SupportedChainId.MAINNET,
        runAfterQuote, checkAndSetAllowance, bigNumber_amount, *]
    · simp [Call.stage, pipelineWithApproval, pipelineWithoutApproval, failure_ethChainId,
        failure_getAddress, failure_getQuote, failure_allowance, failure_getGasPrice,
        failure_approve, failure_wait, failure_signOrder, failure_sendOrder, rejection, SupportedChainId.MAINNET,
        runAfterQuote, checkAndSetAllowance, bigNumber_amount, *]
  refine ⟨main.1, main.2.1, main.2.2.1, main.2.2.2.1, main.2.2.2.2.1, main.2.2.2.2.2, ?_, ?_⟩
  · intro payload h
    obtain ⟨owner, quote, b, sig, -, ha, hq, hr, hs, hp, hcalls⟩ :=
      sendOrder_mem_run env payload h
    exact ⟨owner, quote, b, sig, ha, hq, hr, hs, hp, hcalls⟩
  · intro owner quote b sig hc ha hq hr hs
    rw [run_eq]
    simp only [SupportedChainId.MAINNET] at hc
    simp only [hc, ha, hq, runAfterQuote, hr, hs]
    rcases hsend : env.sendOrder
      (buildPayload quote (buildOrder quote "10000000000000000" owner) sig) with e | id <;>
    simp

/-- Witness for `run_pipeline`: in the sample world the run goes through all
nine calls and returns the order id. -/
theorem run_pipeline_witness :
    (run sampleEnv).calls =
      [Call.ethChainId, Call.getAddress, Call.getQuote
        (quoteRequest WETH_ADDRESS USDT_ADDRESS "0xA11ce" "10000000000000000")] ++
      (checkAndSetAllowance sampleEnv WETH_ADDRESS COW_VAULT_RELAYER
        (BigNumberish.str "10000000000000000")).calls ++
      [Call.signOrder (buildOrder sampleQuote "10000000000000000" "0xA11ce") 1,
       Call.sendOrder
        (buildPayload sampleQuote (buildOrder sampleQuote "10000000000000000" "0xA11ce")
          ⟨"0xsig", "eip712"⟩)] ∧
    (run sampleEnv).result = .ok "0xorder" :=
  (run_pipeline sampleEnv).2.2.2.2.2.2.2 "0xA11ce" sampleQuote true ⟨"0xsig", "eip712"⟩
    rfl rfl rfl (by decide) rfl

/-! ## `monitorOrder`: theorems -/

/-- One iteration on a successful check with a status that is not terminal. -/
theorem monitorLoop_step_pending (env : MonitorEnv) (orderUID : String) (timeout fuel : Nat)
    (s : MonitorState) (orderData : OrderData)
    (htime : s.now - env.startTime < timeout)
    (hok : checkOrderStatus (env.fetch s.fetches (orderUrl orderUID SupportedChainId.MAINNET))
      = StatusResult.data orderData)
    (hpending : ¬ terminalStatus orderData.status) :
    monitorLoop env orderUID timeout (fuel + 1) s =
      monitorLoop env orderUID timeout fuel
        ⟨s.now + env.fetchTime s.fetches + 30000 + env.waitExtra s.waits, s.fetches + 1,
          s.waits + 1⟩ := by
  simp only [terminalStatus, not_or] at hpending
  simp [monitorLoop, htime, hok, StatusResult.hasError, StatusResult.status, hpending.1,
    hpending.2.1, hpending.2.2]

/-- The clock only moves forward. -/
theorem elapsedBefore_mono (env : MonitorEnv) {i j : Nat} (h : i ≤ j) :
    elapsedBefore env i ≤ elapsedBefore env j := by
  induction j with
  | zero =>
    have : i = 0 := Nat.le_zero.mp h
    subst this
    exact Nat.le_refl _
  | succ n ih =>
    rcases Nat.lt_or_ge i (n + 1) with hlt | hge
    · have := ih (Nat.lt_succ_iff.mp hlt)
      simp only [elapsedBefore]
      omega
    · have : i = n + 1 := Nat.le_antisymm h hge
      subst this
      exact Nat.le_refl _

/-- The loop runs through `m` checks that find the order not yet terminal. -/
theorem monitorLoop_pending_run (env : MonitorEnv) (orderUID : String) (timeout : Nat)
    (d : Nat → OrderData) :
    ∀ (m j fuel : Nat),
      (∀ i, j ≤ i → i < j + m →
        checkOrderStatus (env.fetch i (orderUrl orderUID SupportedChainId.MAINNET))
          = StatusResult.data (d i)) →
      (∀ i, j ≤ i → i < j + m → ¬ terminalStatus (d i).status) →
      (∀ i, j ≤ i → i < j + m → elapsedBefore env i < timeout) →
      monitorLoop env orderUID timeout (m + fuel) ⟨env.startTime + elapsedBefore env j, j, j⟩ =
        monitorLoop env orderUID timeout fuel
          ⟨env.startTime + elapsedBefore env (j + m), j + m, j + m⟩ := by
  intro m
  induction m with
  | zero => intro j fuel _ _ _; simp
  | succ m ih =>
    intro j fuel hok hpending htime
    have hstep := monitorLoop_step_pending env orderUID timeout (m + fuel)
      ⟨env.startTime + elapsedBefore env j, j, j⟩ (d j)
      (by simpa using htime j (Nat.le_refl _) (by omega))
      (hok j (Nat.le_refl _) (by omega))
      (hpending j (Nat.le_refl _) (by omega))
    have hfuel : m + 1 + fuel = m + fuel + 1 := by omega
    rw [hfuel, hstep]
    have hnow : env.startTime + elapsedBefore env j + env.fetchTime j + 30000 + env.waitExtra j
        = env.startTime + elapsedBefore env (j + 1) := by
      simp only [elapsedBefore]; omega
    simp only [hnow]
    have := ih (j + 1) fuel
      (fun i h1 h2 => hok i (by omega) (by omega))
      (fun i h1 h2 => hpending i (by omega) (by omega))
      (fun i h1 h2 => htime i (by omega) (by omega))
    rw [this]
    have hidx : j + 1 + m = j + (m + 1) := by omega
    rw [hidx]

/-- C4: when the first `k` status checks succeed, the first terminal status
(fulfilled, cancelled or expired) is that of check `k ≥ 1`, and the timeout has
not elapsed when check `k` starts, `monitorOrder` returns the order data of
check `k` after exactly `k` checks and `k - 1` waits. -/
theorem monitorOrder_returns_first_terminal (env : MonitorEnv) (orderUID : String)
    (timeoutMinutes k fuel : Nat) (d : Nat → OrderData)
    (hk : 1 ≤ k) (hfuel : k ≤ fuel)
    (hok : ∀ i, i < k →
      checkOrderStatus (env.fetch i (orderUrl orderUID SupportedChainId.MAINNET))
        = StatusResult.data (d i))
    (hpending : ∀ i, i + 1 < k → ¬ terminalStatus (d i).status)
    (hterminal : terminalStatus (d (k - 1)).status)
    (htime : elapsedBefore env (k - 1) < timeoutMinutes * 60 * 1000) :
    monitorOrder env orderUID timeoutMinutes fuel
      = some ⟨StatusResult.data (d (k - 1)), k, k - 1⟩ := by
  obtain ⟨n, rfl⟩ : ∃ n, k = n + 1 := ⟨k - 1, by omega⟩
  obtain ⟨f, rfl⟩ : ∃ f, fuel = n + (f + 1) := ⟨fuel - (n + 1), by omega⟩
  simp only [Nat.add_sub_cancel] at hterminal htime ⊢
  have hrun := monitorLoop_pending_run env orderUID (timeoutMinutes * 60 * 1000) d n 0 (f + 1)
    (fun i _ h2 => hok i (by omega))
    (fun i _ h2 => hpending i (by omega))
    (fun i _ h2 => Nat.lt_of_le_of_lt (elapsedBefore_mono env (by omega)) htime)
  simp only [elapsedBefore, Nat.add_zero, Nat.zero_add] at hrun
  unfold monitorOrder monitorFor
  rw [hrun]
  have hdata := hok n (by omega)
  rcases hterminal with h | h | h <;>
  simp [monitorLoop, htime, hdata, StatusResult.hasError, StatusResult.status, h]

/-- Witness for `monitorOrder_returns_first_terminal`: open, open, fulfilled is
answered with fulfilled after exactly 3 checks. -/
theorem monitorOrder_returns_first_terminal_witness :
    monitorOrder fulfilledThirdEnv "0xorder" 10 3
      = some ⟨StatusResult.data ⟨"0xorder", "fulfilled"⟩, 3, 2⟩ :=
  monitorOrder_returns_first_terminal fulfilledThirdEnv "0xorder" 10 3 3
    (fun i => if i < 2 then ⟨"0xorder", "open"⟩ else ⟨"0xorder", "fulfilled"⟩)
    (by decide) (by decide)
    (fun i hi => by
      have : i = 0 ∨ i = 1 ∨ i = 2 := by omega
      rcases this with h | h | h <;> subst h <;> decide)
    (fun i hi => by
      have : i = 0 ∨ i = 1 := by omega
      rcases this with h | h <;> subst h <;> decide)
    (by decide) (by decide)

/-- With instant checks and exact timers the clock advances 30 s per iteration. -/
theorem elapsedBefore_exact (env : MonitorEnv) (hfetch : ∀ i, env.fetchTime i = 0)
    (hwait : ∀ i, env.waitExtra i = 0) (j : Nat) : elapsedBefore env j = 30000 * j := by
  induction j with
  | zero => rfl
  | succ n ih => simp only [elapsedBefore, ih, hfetch, hwait]; omega

/-- The iterations that start before the timeout are those below
`⌈timeout / 30000⌉`. -/
theorem lt_ceil_polls (timeout j : Nat) :
    j < ⌈(timeout : ℚ) / 30000⌉₊ ↔ 30000 * j < timeout := by
  rw [Nat.lt_ceil, lt_div_iff₀ (by norm_num : (0 : ℚ) < 30000)]
  constructor
  · intro h
    have h2 : ((j * 30000 : ℕ) : ℚ) < (timeout : ℚ) := by push_cast; exact h
    have := Nat.cast_lt.mp h2
    omega
  · intro h
    have h2 : ((j * 30000 : ℕ) : ℚ) < (timeout : ℚ) := Nat.cast_lt.mpr (by omega)
    push_cast at h2
    exact h2

/-- C5: when every status check succeeds with a status that is not terminal,
checks take no time and every wait lasts exactly 30 s, `monitorOrder` makes
`⌈timeout / 30000⌉` checks (each followed by a wait) inside the loop, then one
final check, and returns what that final check reports, an order still not
terminal; with `timeout = timeoutMinutes * 60 * 1000` these are
`2 * timeoutMinutes` checks in the loop. -/
theorem monitorOrder_times_out (env : MonitorEnv) (orderUID : String)
    (timeout fuel : Nat) (d : Nat → OrderData)
    (hfetch : ∀ i, env.fetchTime i = 0) (hwait : ∀ i, env.waitExtra i = 0)
    (hok : ∀ i, checkOrderStatus (env.fetch i (orderUrl orderUID SupportedChainId.MAINNET))
      = StatusResult.data (d i))
    (hpending : ∀ i, ¬ terminalStatus (d i).status)
    (hfuel : ⌈(timeout : ℚ) / 30000⌉₊ < fuel) :
    monitorFor env orderUID timeout fuel
      = some ⟨StatusResult.data (d ⌈(timeout : ℚ) / 30000⌉₊),
          ⌈(timeout : ℚ) / 30000⌉₊ + 1, ⌈(timeout : ℚ) / 30000⌉₊⟩ ∧
    ¬ terminalStatus (d ⌈(timeout : ℚ) / 30000⌉₊).status ∧
    (∀ timeoutMinutes, timeout = timeoutMinutes * 60 * 1000 →
      ⌈(timeout : ℚ) / 30000⌉₊ = 2 * timeoutMinutes ∧
      monitorOrder env orderUID timeoutMinutes fuel
        = some ⟨StatusResult.data (d (2 * timeoutMinutes)), 2 * timeoutMinutes + 1,
            2 * timeoutMinutes⟩) := by
  have hexact := elapsedBefore_exact env hfetch hwait
  have hpolls := lt_ceil_polls timeout
  generalize ⌈(timeout : ℚ) / 30000⌉₊ = n at hfuel hpolls ⊢
  have hmain : monitorFor env orderUID timeout fuel
      = some ⟨StatusResult.data (d n), n + 1, n⟩ := by
    obtain ⟨f, rfl⟩ : ∃ f, fuel = n + (f + 1) := ⟨fuel - (n + 1), by omega⟩
    have hrun := monitorLoop_pending_run env orderUID timeout d n 0 (f + 1)
      (fun i _ _ => hok i) (fun i _ _ => hpending i)
      (fun i _ h2 => by rw [hexact]; exact (hpolls i).mp (by omega))
    simp only [elapsedBefore, Nat.add_zero, Nat.zero_add] at hrun
    unfold monitorFor
    rw [hrun, hexact]
    have hstop : ¬ (30000 * n < timeout) := fun h => Nat.lt_irrefl n ((hpolls n).mpr h)
    simp [monitorLoop, hstop, finalCheck, hok]
  refine ⟨hmain, hpending n, ?_⟩
  intro timeoutMinutes ht
  have hn : n = 2 * timeoutMinutes := by
    apply Nat.le_antisymm
    · by_contra hlt
      have := (hpolls (2 * timeoutMinutes)).mp (by omega)
      omega
    · by_contra hlt
      have h1 : ¬ (30000 * n < timeout) := fun h => Nat.lt_irrefl n ((hpolls n).mpr h)
      omega
  refine ⟨hn, ?_⟩
  unfold monitorOrder
  rw [← ht, hmain, hn]

/-- Witness for `monitorOrder_times_out`: ten minutes of an open order are 20
checks in the loop and one final check. -/
theorem monitorOrder_times_out_witness :
    monitorOrder alwaysOpenEnv "0xorder" 10 21
      = some ⟨StatusResult.data ⟨"0xorder", "open"⟩, 21, 20⟩ :=
  ((monitorOrder_times_out alwaysOpenEnv "0xorder" 600000 21 (fun _ => ⟨"0xorder", "open"⟩)
    (fun _ => rfl) (fun _ => rfl) (fun _ => rfl)
    (fun _ => (by decide : ¬ terminalStatus "open"))
    (by
      have h : ⌈((600000 : ℕ) : ℚ) / 30000⌉₊ = 20 := by
        rw [Nat.ceil_eq_iff (by decide)]
        norm_num
      omega)).2.2 10 (by decide)).2

/-- After a failed status check the loop is left and line 237 checks the status
once more: when check `k` is the first to fail, `monitorOrder` makes `k + 1`
checks and returns what check `k + 1` reports. -/
theorem monitorOrder_final_check_after_failure (env : MonitorEnv) (orderUID : String)
    (timeoutMinutes k fuel : Nat) (d : Nat → OrderData) (message : String)
    (hk : 1 ≤ k) (hfuel : k ≤ fuel)
    (hok : ∀ i, i + 1 < k →
      checkOrderStatus (env.fetch i (orderUrl orderUID SupportedChainId.MAINNET))
        = StatusResult.data (d i))
    (hpending : ∀ i, i + 1 < k → ¬ terminalStatus (d i).status)
    (hfail : checkOrderStatus (env.fetch (k - 1) (orderUrl orderUID SupportedChainId.MAINNET))
      = StatusResult.error message)
    (hmessage : message ≠ "")
    (htime : elapsedBefore env (k - 1) < timeoutMinutes * 60 * 1000) :
    monitorOrder env orderUID timeoutMinutes fuel
      = some ⟨checkOrderStatus (env.fetch k (orderUrl orderUID SupportedChainId.MAINNET)),
          k + 1, k - 1⟩ := by
  obtain ⟨n, rfl⟩ : ∃ n, k = n + 1 := ⟨k - 1, by omega⟩
  obtain ⟨f, rfl⟩ : ∃ f, fuel = n + (f + 1) := ⟨fuel - (n + 1), by omega⟩
  simp only [Nat.add_sub_cancel] at hfail htime ⊢
  have hrun := monitorLoop_pending_run env orderUID (timeoutMinutes * 60 * 1000) d n 0 (f + 1)
    (fun i _ h2 => hok i (by omega))
    (fun i _ h2 => hpending i (by omega))
    (fun i _ h2 => Nat.lt_of_le_of_lt (elapsedBefore_mono env (by omega)) htime)
  simp only [elapsedBefore, Nat.add_zero, Nat.zero_add] at hrun
  unfold monitorOrder monitorFor
  rw [hrun]
  simp [monitorLoop, htime, hfail, StatusResult.hasError, hmessage, finalCheck]

/-- C6 (the code at a failing input): the first status check fails with HTTP
500; `monitorOrder` leaves the loop, checks the status once more, so makes 2
checks, and returns the fulfilled order of the second check, not the error. -/
theorem monitorOrder_checks_again_after_failure :
    checkOrderStatus (failsFirstEnv.fetch 0 (orderUrl "0xorder" SupportedChainId.MAINNET))
      = StatusResult.error "HTTP 500: Internal Server Error" ∧
    monitorOrder failsFirstEnv "0xorder" 10 21
      = some ⟨StatusResult.data ⟨"0xorder", "fulfilled"⟩, 2, 0⟩ := by
  decide

end CowSwap
